import Mathlib

/-!
Verification development for the finsys-core form-configuration compiler.

The TypeScript sources are shallowly embedded:
* `utils.ts` (`evaluateExpression`, `getPastMonthLabel`, `getPastYearLabel`),
* `survey-generator.ts` (field normalization, reference resolution, dynamic
  titles, category grouping),
* `rhf-generator.ts` (`applyVisibilityValidation`, `generateRHFSchema`).

JavaScript runtime values are modelled by `JSValue` (integers stand in for JS
numbers: every numeric literal the configuration dialect uses is integral).
Host primitives are injected as explicit parameters: the current date
(`JSDate`, consumed by `new Date()` in the source) and the RegExp engine
(a `String → Option (String → Bool)` parameter; `none` models a pattern that
`new RegExp` rejects).  `evaluateExpression` builds a JS expression text and
runs it with `new Function`; the embedding implements the evaluator for the
dialect's grammar (`{variable} <op> <literal>`), with JS loose-equality,
relational and ToNumber semantics on the value forms that grammar can
produce, and `false` for anything that does not parse (mirroring the
source's catch-all `try/catch`).
-/

/-- A JavaScript runtime value as used by the form compiler: `undefined`,
`null`, `NaN`, an (integral) number, a string, a boolean, or an array. -/
inductive JSValue where
  | undef : JSValue
  | null : JSValue
  | nan : JSValue
  | num : Int → JSValue
  | str : String → JSValue
  | bool : Bool → JSValue
  | arr : List JSValue → JSValue

/-- A JavaScript object, as the evaluator's data context: ordered key/value
pairs, first key wins on lookup (JSON objects carry unique keys). -/
abbrev JSObj := List (String × JSValue)

/-- Property access `data[key]`: `undefined` when the key is absent. -/
def jsLookup (data : JSObj) (k : String) : JSValue :=
  (data.lookup k).getD JSValue.undef

/-- JS falsiness: `undefined`, `null`, `NaN`, `0`, `""` and `false` are falsy. -/
def jsFalsy : JSValue → Bool
  | JSValue.undef => true
  | JSValue.null => true
  | JSValue.nan => true
  | JSValue.num n => n == 0
  | JSValue.str s => s == ""
  | JSValue.bool b => !b
  | JSValue.arr _ => false

/-- String rendering of one array element for `Array.prototype.join`:
`undefined`/`null` render empty, numbers and booleans render canonically.
Nested arrays do not occur in the expression dialect and render empty. -/
def scalarStr : JSValue → String
  | JSValue.undef => ""
  | JSValue.null => ""
  | JSValue.nan => "NaN"
  | JSValue.num n => toString n
  | JSValue.str s => s
  | JSValue.bool b => if b then "true" else "false"
  | JSValue.arr _ => ""

/-- Comma-joined list of strings, as `Array.prototype.join` produces. -/
def joinComma : List String → String
  | [] => ""
  | [s] => s
  | s :: rest => s ++ "," ++ joinComma rest

/-- `ToPrimitive` of an array: its comma-joined string. -/
def arrJoinStr (l : List JSValue) : String :=
  joinComma (l.map scalarStr)

/-- Decimal value of a digit list. -/
def digitsVal (cs : List Char) : Nat :=
  cs.foldl (fun a c => a * 10 + (c.toNat - 48)) 0

/-- Whitespace-trim of a character list (both ends). -/
def trimChars (cs : List Char) : List Char :=
  ((cs.dropWhile Char.isWhitespace).reverse.dropWhile Char.isWhitespace).reverse

/-- JS `ToNumber` on a string, `none` for NaN: trimmed empty string is `0`,
an optionally signed digit run is its value, anything else is NaN (the
fractional/hex forms never appear in the dialect's data). -/
def strToNumber (s : String) : Option Int :=
  match trimChars s.toList with
  | [] => some 0
  | '-' :: ds => if !ds.isEmpty && ds.all Char.isDigit then some (-(digitsVal ds : Int)) else none
  | '+' :: ds => if !ds.isEmpty && ds.all Char.isDigit then some ((digitsVal ds : Int)) else none
  | ds => if ds.all Char.isDigit then some ((digitsVal ds : Int)) else none

/-- JS `ToNumber`, `none` for NaN: `undefined` is NaN, `null` is `0`,
booleans are `0`/`1`, strings parse, arrays go through their join. -/
def toNum : JSValue → Option Int
  | JSValue.undef => none
  | JSValue.null => some 0
  | JSValue.nan => none
  | JSValue.num n => some n
  | JSValue.bool b => some (if b then 1 else 0)
  | JSValue.str s => strToNumber s
  | JSValue.arr l => strToNumber (arrJoinStr l)

/-- JS `ToPrimitive` as used by comparison operators: arrays become their
joined string, every other value is already primitive. -/
def toPrimValue : JSValue → JSValue
  | JSValue.arr l => JSValue.str (arrJoinStr l)
  | v => v

/-- JS loose equality `==` on the primitive forms the dialect produces:
`undefined`/`null` equal each other only, NaN equals nothing, same-type
values compare directly, booleans coerce to numbers, a number meets a
string through `ToNumber`. -/
def jsLooseEq (a b : JSValue) : Bool :=
  match toPrimValue a, toPrimValue b with
  | JSValue.undef, JSValue.undef => true
  | JSValue.undef, JSValue.null => true
  | JSValue.null, JSValue.undef => true
  | JSValue.null, JSValue.null => true
  | JSValue.nan, _ => false
  | _, JSValue.nan => false
  | JSValue.num x, JSValue.num y => x == y
  | JSValue.str x, JSValue.str y => x == y
  | JSValue.bool x, JSValue.bool y => x == y
  | JSValue.bool x, y =>
      match toNum y with
      | some n => ((if x then 1 else 0) : Int) == n
      | none => false
  | x, JSValue.bool y =>
      match toNum x with
      | some n => n == ((if y then 1 else 0) : Int)
      | none => false
  | JSValue.num x, JSValue.str s =>
      match strToNumber s with
      | some n => x == n
      | none => false
  | JSValue.str s, JSValue.num y =>
      match strToNumber s with
      | some n => n == y
      | none => false
  | _, _ => false

/-- The dialect's comparison operators (`=` is folded into `eq` by the
source's single-equals rewrite). -/
inductive CmpOp where
  | eq : CmpOp
  | ne : CmpOp
  | gt : CmpOp
  | lt : CmpOp
  | ge : CmpOp
  | le : CmpOp
deriving DecidableEq

/-- The four relational operators. -/
def CmpOp.isOrdering : CmpOp → Bool
  | CmpOp.gt => true
  | CmpOp.lt => true
  | CmpOp.ge => true
  | CmpOp.le => true
  | _ => false

/-- Relational comparison of two integers under one of the four orderings. -/
def intOrder (op : CmpOp) (x y : Int) : Bool :=
  match op with
  | CmpOp.gt => decide (y < x)
  | CmpOp.lt => decide (x < y)
  | CmpOp.ge => decide (y ≤ x)
  | CmpOp.le => decide (x ≤ y)
  | _ => false

/-- Relational comparison of two strings (JS compares code units; the
lexicographic order on the underlying characters). -/
def strOrder (op : CmpOp) (x y : String) : Bool :=
  match op with
  | CmpOp.gt => decide (y < x)
  | CmpOp.lt => decide (x < y)
  | CmpOp.ge => decide (y ≤ x)
  | CmpOp.le => decide (x ≤ y)
  | _ => false

/-- JS relational semantics: `ToPrimitive` both sides; two strings compare
lexicographically, otherwise both sides go through `ToNumber` and any NaN
makes the comparison false. -/
def jsOrderCmp (op : CmpOp) (a b : JSValue) : Bool :=
  match toPrimValue a, toPrimValue b with
  | JSValue.str x, JSValue.str y => strOrder op x y
  | pa, pb =>
      match toNum pa, toNum pb with
      | some x, some y => intOrder op x y
      | _, _ => false

/-- Apply one parsed comparison operator with JS semantics. -/
def applyCompare (op : CmpOp) (a b : JSValue) : Bool :=
  match op with
  | CmpOp.eq => jsLooseEq a b
  | CmpOp.ne => !(jsLooseEq a b)
  | _ => jsOrderCmp op a b

/-- Parse a comparison operator from the head of the character stream; the
two-character operators are tried first, and a lone `=` reads as equality
(the source rewrites such a `=` to `==` before evaluating). -/
def parseOp : List Char → Option (CmpOp × List Char)
  | '>' :: '=' :: r => some (CmpOp.ge, r)
  | '<' :: '=' :: r => some (CmpOp.le, r)
  | '!' :: '=' :: r => some (CmpOp.ne, r)
  | '=' :: '=' :: r => some (CmpOp.eq, r)
  | '>' :: r => some (CmpOp.gt, r)
  | '<' :: r => some (CmpOp.lt, r)
  | '=' :: r => some (CmpOp.eq, r)
  | _ => none

/-- The single-quote character, used by quoted string literals. -/
def quoteChar : Char := Char.ofNat 39

/-- Parse a literal: `true`/`false`, an optionally negated digit run, or a
quoted string (single or double quotes). -/
def parseLit : List Char → Option (JSValue × List Char)
  | 't' :: 'r' :: 'u' :: 'e' :: r => some (JSValue.bool true, r)
  | 'f' :: 'a' :: 'l' :: 's' :: 'e' :: r => some (JSValue.bool false, r)
  | '-' :: ds =>
      if (ds.takeWhile Char.isDigit).isEmpty then none
      else some (JSValue.num (-(digitsVal (ds.takeWhile Char.isDigit) : Int)), ds.dropWhile Char.isDigit)
  | c :: rest =>
      if c == quoteChar || c == '"' then
        match rest.dropWhile (· ≠ c) with
        | _ :: r2 => some (JSValue.str (String.mk (rest.takeWhile (· ≠ c))), r2)
        | [] => none
      else if c.isDigit then
        some (JSValue.num (digitsVal ((c :: rest).takeWhile Char.isDigit) : Int),
              (c :: rest).dropWhile Char.isDigit)
      else none
  | [] => none

/-- Parse a dialect expression `\x7bvariable\x7d <op> <literal>`: the variable
name is everything up to the closing brace, trimmed (the source trims the
captured key); anything that does not fit this shape fails to parse, which
the evaluator maps to `false` exactly as the source's `try/catch` maps a
thrown syntax or reference error to `false`. -/
def parseExpr (s : String) : Option (String × CmpOp × JSValue) :=
  match s.toList with
  | '{' :: rest =>
      match rest.dropWhile (· ≠ '}') with
      | '}' :: r2 =>
          if (rest.takeWhile (· ≠ '}')).isEmpty then none
          else
            match parseOp (r2.dropWhile (· == ' ')) with
            | some (op, r4) =>
                match parseLit (r4.dropWhile (· == ' ')) with
                | some (lit, r6) =>
                    if r6.all (· == ' ') then
                      some (String.mk (trimChars (rest.takeWhile (· ≠ '}'))), op, lit)
                    else none
                | none => none
            | none => none
      | _ => none
  | _ => none

/-- Embedding of `evaluateExpression` (utils.ts).  The expression argument is
`Option String` so the JS `null`/`undefined` arguments of the test-suite are
representable (`none`); the source's falsiness guard `if (!expression) return
true` accepts `null`, `undefined` and `""` alike. -/
def evaluateExpression (expression : Option String) (data : JSObj) : Bool :=
  match expression with
  | none => true
  | some s =>
      if s == "" then true
      else
        match parseExpr s with
        | some (name, op, lit) => applyCompare op (jsLookup data name) lit
        | none => false

example : evaluateExpression (some "{age} > 18") [("age", JSValue.num 25)] = true := by decide
example : evaluateExpression (some "{age} > 18") [("age", JSValue.num 10)] = false := by decide
example : evaluateExpression (some "{missing} > 0") [] = false := by decide
example : evaluateExpression (some "{value} = 5") [("value", JSValue.num 5)] = true := by decide
example : evaluateExpression (some "{showField} = true") [("showField", JSValue.bool false)] = false := by decide
example : evaluateExpression (some "{showField} = true") [("showField", JSValue.bool true)] = true := by decide
example : evaluateExpression none [] = true := by decide
example : evaluateExpression (some "") [] = true := by decide
example : evaluateExpression (some "\x7b\x7binvalid") [] = false := by decide
example : evaluateExpression (some "not a valid expression !!!") [] = false := by decide
example : evaluateExpression (some "{value} != 5") [("value", JSValue.num 10)] = true := by decide
example : evaluateExpression (some "{value} >= 10") [("value", JSValue.num 10)] = true := by decide
example : evaluateExpression (some "{value} <= 10") [("value", JSValue.num 15)] = false := by decide

/-- JS truthiness of an optional string property (`field.visibleIf` is truthy
exactly when present and non-empty). -/
def jsTruthyStr : Option String → Bool
  | none => false
  | some s => !(s == "")

/-- The string a JS `x || dflt` produces when `x` is an optional string
property: the default when the property is absent or empty. -/
def jsOrD (o : Option String) (dflt : String) : String :=
  match o with
  | some s => if s == "" then dflt else s
  | none => dflt

/-- A category of the configuration document: `{id, name}`. -/
structure Category where
  id : String
  name : String
deriving DecidableEq

/-- A declared validator.  The compiler reads `type`, `text`, `regex`,
`minValue` and `maxValue`; the remaining declared properties
(`minLength`, `maxCount`, `expression`, ...) are never consulted by the
schema generator and are not modelled. -/
structure Validator where
  type : String
  text : Option String := none
  regex : Option String := none
  minValue : Option Int := none
  maxValue : Option Int := none
deriving DecidableEq

/-- A field definition from the configuration's `fields` mapping
(survey-generator.ts `FieldData`).  `none` models an absent property.
`min`/`max` are modelled as integers (the source accepts a number or a
numeric string and coerces with `Number`).  Properties the compiler only
passes through (`choices`, `maxLength`, `placeholder`, ...) live in the
`extra` bag, as one explicit bag of named pass-through properties. -/
structure FieldData where
  name : Option String := none
  displayName : Option String := none
  type : String
  inputType : Option String := none
  category : Option String := none
  min : Option Int := none
  max : Option Int := none
  validators : List Validator := []
  visible : Option Bool := none
  visibleIf : Option String := none
  required : Option Bool := none
  isRequired : Option Bool := none
  defaultValue : Option JSValue := none
  extra : List (String × JSValue) := []

/-- A resolved field: a field definition with a guaranteed `name`. -/
structure ResolvedField where
  name : String
  displayName : Option String := none
  type : String
  inputType : Option String := none
  category : Option String := none
  min : Option Int := none
  max : Option Int := none
  validators : List Validator := []
  visible : Option Bool := none
  visibleIf : Option String := none
  required : Option Bool := none
  isRequired : Option Bool := none
  defaultValue : Option JSValue := none
  extra : List (String × JSValue) := []

/-- The overriding properties of a `{ref, ...overrides}` reference: every
property optional, present ones shadow the referenced definition's. -/
structure PartialField where
  name : Option String := none
  displayName : Option String := none
  type : Option String := none
  inputType : Option String := none
  category : Option String := none
  min : Option Int := none
  max : Option Int := none
  validators : Option (List Validator) := none
  visible : Option Bool := none
  visibleIf : Option String := none
  required : Option Bool := none
  isRequired : Option Bool := none
  defaultValue : Option JSValue := none
  extra : List (String × JSValue) := []

/-- First option if present, else the second (the presence rule of a JS
object spread, later spread shadowing earlier). -/
def mergeOpt (a b : Option α) : Option α :=
  match a with
  | some x => some x
  | none => b

/-- Key-by-key merge of two pass-through bags, entries of `over` shadowing
same-keyed entries of `base` and fresh keys of `over` appended. -/
def mergeExtras (base over : List (String × JSValue)) : List (String × JSValue) :=
  base.map (fun p => match over.lookup p.1 with
    | some v => (p.1, v)
    | none => p) ++ over.filter (fun p => !(base.any (fun q => q.1 == p.1)))

/-- A page's field reference: a bare name, a `{ref, ...overrides}` object, or
an inline `{definition}` (survey-generator.ts `FieldReference`). -/
inductive FieldReference where
  | bare : String → FieldReference
  | withRef : String → PartialField → FieldReference
  | inline : ResolvedField → FieldReference

/-- A page of the configuration (the properties the RHF generator reads). -/
structure PageConfig where
  id : String
  title : Option String := none
  description : Option String := none
  showCategoryHeadings : Option Bool := none
  layout : Option String := none
  fields : List FieldReference

/-- The unified form configuration (the properties the RHF generator reads);
`fields` is the name-keyed definition mapping, as ordered pairs. -/
structure UnifiedFormConfig where
  displayName : Option String := none
  templateIcon : Option String := none
  categories : List Category := []
  fields : List (String × FieldData) := []
  pages : Option (List PageConfig) := none

/-- Embedding of `normalizeField` (survey-generator.ts): both `required` and
`isRequired` become the boolean `(isRequired !== false) && (required !==
false)` — absent markers mean required. -/
def normalizeField (field : ResolvedField) : ResolvedField :=
  let isRequired := !(field.isRequired == some false) && !(field.required == some false)
  { field with required := some isRequired, isRequired := some isRequired }

/-- The object `\x7bname: ref, ...fieldDef\x7d` of the bare-name branch of
`resolveFieldReference`: the stored definition's properties spread over the
reference name, so a `name` property carried by the stored definition
shadows the reference name. -/
def bareMerge (refName : String) (fieldDef : FieldData) : ResolvedField :=
  { name := fieldDef.name.getD refName
    displayName := fieldDef.displayName
    type := fieldDef.type
    inputType := fieldDef.inputType
    category := fieldDef.category
    min := fieldDef.min
    max := fieldDef.max
    validators := fieldDef.validators
    visible := fieldDef.visible
    visibleIf := fieldDef.visibleIf
    required := fieldDef.required
    isRequired := fieldDef.isRequired
    defaultValue := fieldDef.defaultValue
    extra := fieldDef.extra }

/-- The object `\x7bname: fieldName, ...fieldDef, ...overrides\x7d` of the
override branch: override properties take final precedence, then the stored
definition's, then the reference name. -/
def overrideMerge (refName : String) (fieldDef : FieldData) (over : PartialField) : ResolvedField :=
  { name := (mergeOpt over.name fieldDef.name).getD refName
    displayName := mergeOpt over.displayName fieldDef.displayName
    type := over.type.getD fieldDef.type
    inputType := mergeOpt over.inputType fieldDef.inputType
    category := mergeOpt over.category fieldDef.category
    min := mergeOpt over.min fieldDef.min
    max := mergeOpt over.max fieldDef.max
    validators := over.validators.getD fieldDef.validators
    visible := mergeOpt over.visible fieldDef.visible
    visibleIf := mergeOpt over.visibleIf fieldDef.visibleIf
    required := mergeOpt over.required fieldDef.required
    isRequired := mergeOpt over.isRequired fieldDef.isRequired
    defaultValue := mergeOpt over.defaultValue fieldDef.defaultValue
    extra := mergeExtras fieldDef.extra over.extra }

/-- Embedding of `resolveFieldReference` (survey-generator.ts): a bare name
looks the definition up (absent name: diagnostic and `null`), an inline
definition is normalized verbatim, an override reference merges.  The
source tests `"definition" in ref` before `"ref" in ref`; the inductive
reference type keeps the three shapes disjoint. -/
def resolveFieldReference (ref : FieldReference) (fields : List (String × FieldData)) :
    Option ResolvedField :=
  match ref with
  | FieldReference.bare s =>
      match fields.lookup s with
      | some fieldDef => some (normalizeField (bareMerge s fieldDef))
      | none => none
  | FieldReference.inline d => some (normalizeField d)
  | FieldReference.withRef r over =>
      match fields.lookup r with
      | some fieldDef => some (normalizeField (overrideMerge r fieldDef over))
      | none => none

/-- A calendar date as the title helpers consume it from `new Date()`:
`month` is the JS month index `0..11`, `day` is `1..31` (validity is a
side condition of the theorems, not of the type). -/
structure JSDate where
  year : Int
  month : Nat
  day : Nat
deriving DecidableEq

/-- Gregorian leap year, as JS `Date` computes it. -/
def isLeapYear (y : Int) : Bool :=
  y % 4 == 0 && (y % 100 != 0 || y % 400 == 0)

/-- Days in a month (JS month index). -/
def daysInMonth (y : Int) (m : Nat) : Nat :=
  match m with
  | 0 => 31
  | 1 => if isLeapYear y then 29 else 28
  | 2 => 31
  | 3 => 30
  | 4 => 31
  | 5 => 30
  | 6 => 31
  | 7 => 31
  | 8 => 30
  | 9 => 31
  | 10 => 30
  | 11 => 31
  | _ => 31

/-- JS `Date.prototype.setMonth t`: the year absorbs `t`'s floor-quotient by
12 (Euclidean division agrees with floor division for the positive modulus),
and when the kept day-of-month exceeds the target month's length the date
rolls over into the following month — e.g. setting a day-31 date to a
30-day month lands on the 1st of the month after.  For days `≤ 31` the
overflow never carries further than one month. -/
def jsSetMonth (d : JSDate) (t : Int) : JSDate :=
  let y := d.year + t / 12
  let m := (t % 12).toNat
  if d.day > daysInMonth y m then
    { year := if m == 11 then y + 1 else y
      month := (m + 1) % 12
      day := d.day - daysInMonth y m }
  else
    { year := y, month := m, day := d.day }

/-- The twelve month names `toLocaleString(.., \x7bmonth: "long"\x7d)` yields
(the `default` locale resolved to English). -/
def monthNames : List String :=
  ["January", "February", "March", "April", "May", "June",
   "July", "August", "September", "October", "November", "December"]

/-- Long name of a JS month index. -/
def monthLongName (m : Nat) : String :=
  monthNames.getD m ""

/-- Embedding of `getPastMonthLabel` (utils.ts): `date.setMonth(date.getMonth()
- monthsAgo)` on the injected current date, then the month's long name. -/
def getPastMonthLabel (today : JSDate) (monthsAgo : Nat) : String :=
  monthLongName (jsSetMonth today ((today.month : Int) - monthsAgo)).month

/-- Embedding of `getPastYearLabel` (utils.ts). -/
def getPastYearLabel (today : JSDate) (yearsAgo : Nat) : String :=
  toString (today.year - yearsAgo)

/-- The numeric suffix of a `bank_statement_tN` name, `none` when the name
does not fully match the pattern (the source's regex is anchored at both
ends, so a bare `bank_statement` or a non-numeric suffix does not match). -/
def bankStatementSuffix (s : String) : Option Nat :=
  let cs := s.toList
  let pre := "bank_statement_t".toList
  if cs.take 16 == pre && !(cs.drop 16).isEmpty && (cs.drop 16).all Char.isDigit then
    some (digitsVal (cs.drop 16))
  else none

/-- Embedding of `applyDynamicTitles` (survey-generator.ts) with the current
date injected: a `bank_statement_tN` name gets the month label N months
back, the literal name `financials` gets last year's label, anything else
is unchanged. -/
def applyDynamicTitles (today : JSDate) (field : ResolvedField) : ResolvedField :=
  match bankStatementSuffix field.name with
  | some monthsAgo =>
      { field with displayName := some ("Bank Statement (" ++ getPastMonthLabel today monthsAgo ++ ")") }
  | none =>
      if field.name == "financials" then
        { field with displayName := some ("Audited Financial Statement (" ++ getPastYearLabel today 1 ++ ")") }
      else field

/-- Embedding of `resolvePageFields` (survey-generator.ts): resolve each
reference, drop the `null`s, apply the dynamic-title transform (the
source's map / filter-nulls / map chain is one `filterMap` then a map). -/
def resolvePageFields (today : JSDate) (page : PageConfig)
    (fields : List (String × FieldData)) : List ResolvedField :=
  (page.fields.filterMap (fun r => resolveFieldReference r fields)).map
    (applyDynamicTitles today)

/-- Embedding of `getCategoryName` (survey-generator.ts): `undefined` id,
no match, or a falsy matched name all yield `"Other"`. -/
def getCategoryName (categoryId : Option String) (categories : List Category) : String :=
  match categoryId with
  | none => "Other"
  | some cid =>
      match categories.find? (fun c => c.id == cid) with
      | some cat => if cat.name == "" then "Other" else cat.name
      | none => "Other"

/-- A run of adjacent same-category fields (survey-generator.ts `FieldGroup`). -/
structure FieldGroup where
  category : String
  categoryName : String
  fields : List ResolvedField

/-- The loop body of `groupFieldsByCategory`, with the running group held
explicitly (the source mutates a `currentGroup` pointer to the last pushed
group): a field whose category (absent normalized to `""`) matches the
running group joins it, otherwise the running group is emitted and a fresh
one starts. -/
def groupFieldsGo (categories : List Category) (cur : FieldGroup) :
    List ResolvedField → List FieldGroup
  | [] => [cur]
  | f :: fs =>
      let c := f.category.getD ""
      if cur.category == c then
        groupFieldsGo categories { cur with fields := cur.fields ++ [f] } fs
      else
        cur :: groupFieldsGo categories
          { category := c, categoryName := getCategoryName (some c) categories, fields := [f] } fs

/-- Embedding of `groupFieldsByCategory` (survey-generator.ts): a single
linear pass producing maximal adjacent runs of equal category. -/
def groupFieldsByCategory (fields : List ResolvedField) (categories : List Category) :
    List FieldGroup :=
  match fields with
  | [] => []
  | f :: fs =>
      let c := f.category.getD ""
      groupFieldsGo categories
        { category := c, categoryName := getCategoryName (some c) categories, fields := [f] } fs

/-- The base type class the schema generator decides once per field and
threads explicitly (rhf-generator.ts tracks it because `.refine()` turns a
`ZodString` into a `ZodEffects`, defeating later `instanceof` checks). -/
inductive BaseType where
  | string : BaseType
  | number : BaseType
  | array : BaseType
  | boolean : BaseType
  | any : BaseType
deriving DecidableEq

/-- One compiled constraint of a field's schema chain, in application order:
the `.min` checks of the base `Zod` type and the `.refine` layers (the
refinements of this generator test string values only). -/
inductive ZCheck where
  | strMin1 : String → ZCheck
  | arrMin1 : String → ZCheck
  | numMin : Int → String → ZCheck
  | numMax : Int → String → ZCheck
  | strRefine : (String → Bool) → String → ZCheck

/-- A field's compiled schema: its base type class, its constraint chain, and
whether the final optional-with-empty-permitted wrapper was applied. -/
structure FieldSchema where
  baseType : BaseType
  checks : List ZCheck
  wrapped : Bool

/-- A field-level validation issue; `fatal` marks a Zod `invalid_type`
failure (which aborts, skipping later refinements). -/
structure FIssue where
  message : String
  fatal : Bool
deriving DecidableEq

/-- Model of Zod's `z.string().email()` format test, as the generator's email
refinements consult it: one `@`, a non-empty local part without spaces or a
second `@`, and a domain of non-empty dot-separated labels whose last label
has at least two letters. -/
def emailOk (s : String) : Bool :=
  let cs := s.toList
  let lp := cs.takeWhile (· ≠ '@')
  match cs.dropWhile (· ≠ '@') with
  | '@' :: dom =>
      if dom.any (· == '@') || lp.isEmpty || lp.any (fun c => c == ' ') then false
      else
        let labels := (String.mk dom).splitOn "."
        decide (2 ≤ labels.length) && labels.all (fun l => !(l == ""))
          && (match labels.getLast? with
              | some tld => decide (2 ≤ tld.length) && tld.toList.all Char.isAlpha
              | none => false)
  | _ => false

/-- JS `Number(v)` as the generator coerces a declared default. -/
def jsNumberCoerce (v : JSValue) : JSValue :=
  match toNum v with
  | some n => JSValue.num n
  | none => JSValue.nan

/-- Embedding of the per-field loop body of `generateRHFSchema`
(rhf-generator.ts): decide the base type and default value, layer numeric
bounds, the required floor for required always-visible fields, the implicit
email check, the declared validators (an unparsable regex — `rx` returning
`none` — is logged and skipped), and mark the optional wrapper for fields
that are not required-and-always-visible.  `schema instanceof z.ZodNumber`
holds exactly for the number base type at the numeric-validator branch (no
refinement of this generator applies to a number schema), and `instanceof
z.ZodString` holds exactly for the string base type at the floor and
implicit-email branches; the embedding uses the tracked base type there, as
the source's comments prescribe. -/
def compileField (rx : String → Option (String → Bool)) (field : ResolvedField) :
    FieldSchema × JSValue :=
  let isNumber := field.inputType == some "number" || field.type == "number"
      || field.type == "slider" || field.type == "range"
  let baseType : BaseType :=
    if isNumber then BaseType.number
    else if field.type == "checkbox" then BaseType.array
    else if field.type == "file" then BaseType.array
    else if field.type == "boolean" then BaseType.boolean
    else if field.type == "html" then BaseType.any
    else BaseType.string
  let dflt : JSValue :=
    if isNumber then
      match field.defaultValue with
      | some v => jsNumberCoerce v
      | none => JSValue.str ""
    else if field.type == "checkbox" || field.type == "file" then JSValue.arr []
    else if field.type == "boolean" then field.defaultValue.getD (JSValue.bool false)
    else if field.type == "html" then JSValue.str ""
    else
      match field.defaultValue with
      | some (JSValue.arr l) =>
          match l.head? with
          | some v => if jsFalsy v then JSValue.str "" else v
          | none => JSValue.str ""
      | some v => v
      | none => JSValue.str ""
  let boundChecks : List ZCheck :=
    if baseType == BaseType.number then
      (match field.min with
       | some n => [ZCheck.numMin n ("Minimum value is " ++ toString n)]
       | none => []) ++
      (match field.max with
       | some n => [ZCheck.numMax n ("Maximum value is " ++ toString n)]
       | none => [])
    else []
  let isRequired := !(field.isRequired == some false) && !(field.required == some false)
      && !(field.type == "html")
  let isAlwaysVisible := !(field.visible == some false) && !(jsTruthyStr field.visibleIf)
  let isActuallyInput := !(field.type == "html")
  let floorChecks : List ZCheck :=
    if isRequired && isAlwaysVisible && isActuallyInput then
      if baseType == BaseType.string then [ZCheck.strMin1 "This field is required"]
      else if baseType == BaseType.array then [ZCheck.arrMin1 "Please select at least one option"]
      else []
    else []
  let hasExplicitEmailValidator := field.validators.any (fun v => v.type == "email")
  let implicitEmail : List ZCheck :=
    if (field.inputType == some "email" || field.name == "email")
        && baseType == BaseType.string && !hasExplicitEmailValidator then
      [ZCheck.strRefine (fun val => val == "" || emailOk val) "Invalid email address"]
    else []
  let validatorChecks : List ZCheck :=
    field.validators.flatMap (fun v =>
      (if v.type == "regex" then
        match v.regex with
        | some pat =>
            match rx pat with
            | some matcher =>
                if baseType == BaseType.string then
                  [ZCheck.strRefine (fun val => val == "" || matcher val) (jsOrD v.text "Invalid format")]
                else []
            | none => []
        | none => []
      else []) ++
      (if v.type == "email" && baseType == BaseType.string then
        [ZCheck.strRefine (fun val => val == "" || emailOk val) (jsOrD v.text "Invalid email")]
      else []) ++
      (if v.type == "numeric" && baseType == BaseType.number then
        (match v.minValue with
         | some n => [ZCheck.numMin n (v.text.getD ("Number must be greater than or equal to " ++ toString n))]
         | none => []) ++
        (match v.maxValue with
         | some n => [ZCheck.numMax n (v.text.getD ("Number must be less than or equal to " ++ toString n))]
         | none => [])
      else []))
  ({ baseType := baseType
     checks := boundChecks ++ floorChecks ++ implicitEmail ++ validatorChecks
     wrapped := !(isRequired && isAlwaysVisible && isActuallyInput) }, dflt)

/-- Run the compiled chain on a string value: the `ZodString` checks and the
refinements collect their failures in chain order (a failed `.min` leaves
the parse dirty, not aborted, so later refinements still run). -/
def runStringChecks (checks : List ZCheck) (s : String) : List FIssue :=
  checks.filterMap (fun ch =>
    match ch with
    | ZCheck.strMin1 msg => if s == "" then some ⟨msg, false⟩ else none
    | ZCheck.strRefine pred msg => if pred s then none else some ⟨msg, false⟩
    | _ => none)

/-- Run the compiled chain on a coerced number. -/
def runNumberChecks (checks : List ZCheck) (n : Int) : List FIssue :=
  checks.filterMap (fun ch =>
    match ch with
    | ZCheck.numMin bound msg => if n < bound then some ⟨msg, false⟩ else none
    | ZCheck.numMax bound msg => if bound < n then some ⟨msg, false⟩ else none
    | _ => none)

/-- Run a compiled field schema without its optional wrapper: an
`invalid_type` mismatch is fatal, otherwise the chain's checks collect. -/
def runFieldSchemaBase (fs : FieldSchema) (v : JSValue) : List FIssue :=
  match fs.baseType with
  | BaseType.any => []
  | BaseType.string =>
      match v with
      | JSValue.str s => runStringChecks fs.checks s
      | JSValue.undef => [⟨"Required", true⟩]
      | _ => [⟨"Expected string", true⟩]
  | BaseType.number =>
      match toNum v with
      | some n => runNumberChecks fs.checks n
      | none => [⟨"Expected number, received nan", true⟩]
  | BaseType.array =>
      match v with
      | JSValue.arr l =>
          fs.checks.filterMap (fun ch =>
            match ch with
            | ZCheck.arrMin1 msg => if l.isEmpty then some ⟨msg, false⟩ else none
            | _ => none)
      | JSValue.undef => [⟨"Required", true⟩]
      | _ => [⟨"Expected array", true⟩]
  | BaseType.boolean =>
      match v with
      | JSValue.bool _ => []
      | JSValue.undef => [⟨"Required", true⟩]
      | _ => [⟨"Expected boolean", true⟩]

/-- Run a compiled field schema: the optional wrapper admits the per-type
empty sentinels (`undefined`, and for numbers `""`/`null`, for strings
`""`) before the underlying chain is consulted. -/
def runFieldSchema (fs : FieldSchema) (v : JSValue) : List FIssue :=
  if fs.wrapped then
    match fs.baseType, v with
    | BaseType.number, JSValue.undef => []
    | BaseType.number, JSValue.str "" => []
    | BaseType.number, JSValue.null => []
    | BaseType.string, JSValue.undef => []
    | BaseType.string, JSValue.str "" => []
    | BaseType.array, JSValue.undef => []
    | BaseType.boolean, JSValue.undef => []
    | BaseType.any, _ => []
    | _, _ => runFieldSchemaBase fs v
  else runFieldSchemaBase fs v

/-- The type/inputType combinations `compileField` classifies as the string
base type (neither numeric, nor multi-select array, nor boolean, nor
free-form html). -/
def stringBaseField (field : ResolvedField) : Bool :=
  !(field.inputType == some "number") && !(field.type == "number")
    && !(field.type == "slider") && !(field.type == "range")
    && !(field.type == "checkbox") && !(field.type == "file")
    && !(field.type == "boolean") && !(field.type == "html")

/-- A whole-form validation failure `\x7bpath, message\x7d`. -/
structure Issue where
  path : List String
  message : String
deriving DecidableEq

/-- The required test of the visibility pass (rhf-generator.ts line 107):
`required`/`isRequired` not explicitly false and the type not `html`. -/
def requiredFlag (field : ResolvedField) : Bool :=
  !(field.isRequired == some false) && !(field.required == some false)
    && !(field.type == "html")

/-- The visibility gate of the visibility pass: `visible !== false`, further
gated by evaluating a (truthy) `visibleIf` against the data. -/
def isVisibleField (field : ResolvedField) (data : JSObj) : Bool :=
  let iv := !(field.visible == some false)
  if iv && jsTruthyStr field.visibleIf then evaluateExpression field.visibleIf data
  else iv

/-- The emptiness test of the visibility pass: `undefined`, `null`, the empty
string, or an empty array. -/
def isEmptyValue : JSValue → Bool
  | JSValue.undef => true
  | JSValue.null => true
  | JSValue.str s => s == ""
  | JSValue.arr l => l.isEmpty
  | _ => false

/-- The issue one field contributes inside `applyVisibilityValidation`'s
`superRefine` callback: required and visible and empty-valued attaches
`"This field is required"` at the field's path. -/
def fieldVisibilityIssue (data : JSObj) (field : ResolvedField) : Option Issue :=
  if !(requiredFlag field) then none
  else if isVisibleField field data then
    if isEmptyValue (jsLookup data field.name) then
      some ⟨[field.name], "This field is required"⟩
    else none
  else none

/-- Embedding of `applyVisibilityValidation` (rhf-generator.ts): the list of
issues the visibility-aware `superRefine` attaches for a field list against
one data object, in field order. -/
def applyVisibilityValidation (fields : List ResolvedField) (data : JSObj) : List Issue :=
  fields.filterMap (fieldVisibilityIssue data)

/-- A wizard step (rhf-generator.ts `RHFStep`). -/
structure RHFStep where
  id : Nat
  title : String
  description : Option String
  fields : List ResolvedField
  showCategoryHeadings : Bool
  layout : Option String

/-- The compiled output of `generateRHFSchema` (rhf-generator.ts
`RHFSchemaOutput`): the base object's shape as name-keyed compiled field
schemas (the `zodSchema` is this shape with `applyVisibilityValidation`
layered over it, which the embedding keeps as the separate function). -/
structure RHFSchemaOutput where
  shape : List (String × FieldSchema)
  defaultValues : List (String × JSValue)
  fields : List ResolvedField
  groupedFields : List FieldGroup
  steps : List RHFStep
  displayName : String
  categories : List Category
  templateIcon : Option String

/-- Assignment into a JS object modelled as ordered pairs: an existing key's
value is replaced in place, a fresh key is appended. -/
def upsert (m : List (String × α)) (k : String) (v : α) : List (String × α) :=
  if m.any (fun p => p.1 == k) then
    m.map (fun p => if p.1 == k then (k, v) else p)
  else m ++ [(k, v)]

/-- The steps `generateRHFSchema` builds: one per page, carrying that page's
own resolved fields and display flags. -/
def buildSteps (today : JSDate) (pages : List PageConfig)
    (fieldsMap : List (String × FieldData)) : List RHFStep :=
  pages.enum.map (fun p =>
    { id := p.1
      title := p.2.title.getD ""
      description := p.2.description
      fields := resolvePageFields today p.2 fieldsMap
      showCategoryHeadings := p.2.showCategoryHeadings.getD false
      layout := p.2.layout })

/-- The message of the single fatal configuration error. -/
def pagesErrorMsg : String :=
  "v2.0.0 templates must include a \x27pages\x27 configuration."

/-- Embedding of `generateRHFSchema` (rhf-generator.ts): throwing is modelled
as `Except.error`; an absent or empty `pages` list is the single error, and
every other anomaly (unresolved reference, bad regex, failed expression)
degrades inside the total helper functions.  The current date and the
RegExp engine are injected. -/
def generateRHFSchema (today : JSDate) (rx : String → Option (String → Bool))
    (config : UnifiedFormConfig) : Except String RHFSchemaOutput :=
  let pages := config.pages.getD []
  if pages.isEmpty then Except.error pagesErrorMsg
  else
    let allFields := pages.flatMap (fun p => resolvePageFields today p config.fields)
    let mergedFields := allFields.map (applyDynamicTitles today)
    let shapeDefaults :=
      mergedFields.foldl
        (fun (acc : List (String × FieldSchema) × List (String × JSValue)) f =>
          let compiled := compileField rx f
          (upsert acc.1 f.name compiled.1, upsert acc.2 f.name compiled.2))
        ([], [])
    Except.ok
      { shape := shapeDefaults.1
        defaultValues := shapeDefaults.2
        fields := mergedFields
        groupedFields := groupFieldsByCategory mergedFields config.categories
        steps := buildSteps today pages config.fields
        displayName := jsOrD config.displayName "Application Form"
        categories := config.categories
        templateIcon := config.templateIcon }

/-- The always-failing injected RegExp engine (no pattern compiles); used by
concrete instances that carry no regex validator. -/
def rxNoneDemo : String → Option (String → Bool) := fun _ => none

/-- A mid-month current date, far from any `setMonth` overflow. -/
def dateDemo : JSDate := ⟨2025, 4, 15⟩

/-- March 29 of the leap year 2024: one month back is Feb 29 2024 (valid),
thirteen months back is Feb 29 2023, which overflows to March 1 2023. -/
def leapEdgeDateDemo : JSDate := ⟨2024, 2, 29⟩

/-- August 31: one month back is July 31, two months back is June 31, which
overflows to July 1 — the two labels collide. -/
def monthEndDateDemo : JSDate := ⟨2025, 7, 31⟩

/-- A text field whose type-driven branches are all inert. -/
def textFieldDemo : FieldData := { type := "text" }

/-- The boolean gate field of the visibility scenario. -/
def showFieldDemo : ResolvedField := { name := "showField", type := "boolean" }

/-- A required text field gated on the boolean field. -/
def secretFieldDemo : ResolvedField :=
  { name := "secretField", type := "text", required := some true
    visibleIf := some "{showField} = true" }

/-- Data under which the gate evaluates false. -/
def hiddenDataDemo : JSObj := [("showField", JSValue.bool false), ("secretField", JSValue.str "")]

/-- Data under which the gate evaluates true and the gated value is empty. -/
def visibleDataDemo : JSObj := [("showField", JSValue.bool true), ("secretField", JSValue.str "")]

/-- An email-format validator with an explicit message. -/
def emailValidatorDemo : Validator := { type := "email", text := some "Bad email" }

/-- A required text field carrying the email validator. -/
def emailFieldDemo : ResolvedField :=
  { name := "email", type := "text", required := some true
    validators := [emailValidatorDemo] }

/-- A stored definition carrying its own conflicting `name` property. -/
def conflictFieldsDemo : List (String × FieldData) :=
  [("a", { name := some "other", type := "text" })]

/-- A two-entry field mapping for page-resolution scenarios. -/
def pageFieldsDemo : List (String × FieldData) :=
  [("fullName", textFieldDemo), ("email", textFieldDemo)]

/-- A file field for the dynamic-title scenarios. -/
def bankFieldDemo (n : String) : ResolvedField :=
  { name := n, type := "file", displayName := some "Bank Statement" }

/-- Two named categories for the grouping scenarios. -/
def demoCategories : List Category := [⟨"A", "Category A"⟩, ⟨"B", "Category B"⟩]

/-- A resolved text field in a category. -/
def catFieldDemo (n c : String) : ResolvedField :=
  { name := n, type := "text", category := some c }

/-- Five fields whose category sequence is A, A, B, B, A. -/
def abbaFieldsDemo : List ResolvedField :=
  [catFieldDemo "f1" "A", catFieldDemo "f2" "A", catFieldDemo "f3" "B",
   catFieldDemo "f4" "B", catFieldDemo "f5" "A"]

/-- A configuration with an explicitly empty pages list. -/
def emptyPagesConfigDemo : UnifiedFormConfig := { pages := some [] }

/-- A configuration with one page of two resolvable references. -/
def onePageConfigDemo : UnifiedFormConfig :=
  { fields := pageFieldsDemo
    pages := some [{ id := "p1", fields := [FieldReference.bare "fullName", FieldReference.bare "email"] }] }

/-- An ordering comparison whose left operand is `undefined` is false for
every right operand (`undefined` coerces to NaN, and NaN compares false). -/
theorem jsOrderCmp_undef_left (op : CmpOp) (b : JSValue) :
    jsOrderCmp op JSValue.undef b = false := by
  cases b <;> rfl

/-- An expression that evaluates to `false` is present and non-empty (the
absent and empty expressions both evaluate to `true`). -/
theorem eval_false_truthy (o : Option String) (data : JSObj)
    (h : evaluateExpression o data = false) : jsTruthyStr o = true := by
  cases o with
  | none => simp [evaluateExpression] at h
  | some s =>
      by_cases hs : (s == "") = true
      · rw [evaluateExpression, if_pos hs] at h
        cases h
      · simp only [jsTruthyStr, Bool.not_eq_true']
        simpa using hs

/-- Claim C3: `normalizeField` sets both `required` and `isRequired` to the
single boolean `(isRequired !== false) && (required !== false)`; every
resolved field therefore has `required === isRequired`; a definition
omitting both markers resolves as required; and normalization is
idempotent. -/
theorem C3_normalize_required (f : ResolvedField) :
    (normalizeField f).required
        = some (!(f.isRequired == some false) && !(f.required == some false))
    ∧ (normalizeField f).required = (normalizeField f).isRequired
    ∧ (normalizeField { f with required := none, isRequired := none }).required = some true
    ∧ normalizeField (normalizeField f) = normalizeField f := by
  refine ⟨rfl, rfl, rfl, ?_⟩
  unfold normalizeField
  cases hb : (!(f.isRequired == some false) && !(f.required == some false)) <;> simp [hb]

/-- Claim C6 (amended): the evaluator returns `true` for the empty
expression under every data object, treats a single `=` as equality, and
never raises on malformed input; a `null` expression also evaluates `true`
(the source's falsiness guard), not `false` as the claim stated. -/
theorem C6_expression_guards (data : JSObj) :
    evaluateExpression (some "") data = true
    ∧ evaluateExpression none data = true
    ∧ evaluateExpression (some "{value} = 5") [("value", JSValue.num 5)] = true
    ∧ evaluateExpression (some "\x7b\x7binvalid") data = false
    ∧ evaluateExpression (some "not a valid expression !!!") data = false := by
  exact ⟨rfl, rfl, by decide, rfl, rfl⟩

/-- Claim C6 counterexample: `evaluate(null, \x7b\x7d)` returns `true`, not
`false` as the claim states — the guard `if (!expression) return true`
treats `null` like the empty expression, and the repository's own test
suite asserts exactly this. -/
theorem C6_null_expression_counterexample :
    ¬(evaluateExpression none [] = false) := by decide

/-- Claim C7: the evaluator's ordering comparisons follow the host's
semantics — `\x7bage\x7d > 18` is true at 25 and false at 10 — and a
variable absent from the data context makes every ordering comparison
false (`undefined` is never `>` or `<` anything). -/
theorem C7_ordering_comparisons (data : JSObj) (name : String) (lit : JSValue) (op : CmpOp)
    (habsent : data.lookup name = none) (hord : op.isOrdering = true) :
    evaluateExpression (some "{age} > 18") [("age", JSValue.num 25)] = true
    ∧ evaluateExpression (some "{age} > 18") [("age", JSValue.num 10)] = false
    ∧ applyCompare op (jsLookup data name) lit = false
    ∧ evaluateExpression (some "{missing} > 0") [] = false := by
  refine ⟨by decide, by decide, ?_, by decide⟩
  have hu : jsLookup data name = JSValue.undef := by
    simp [jsLookup, habsent]
  rw [hu]
  cases op with
  | eq => cases hord
  | ne => cases hord
  | gt => exact jsOrderCmp_undef_left CmpOp.gt lit
  | lt => exact jsOrderCmp_undef_left CmpOp.lt lit
  | ge => exact jsOrderCmp_undef_left CmpOp.ge lit
  | le => exact jsOrderCmp_undef_left CmpOp.le lit

/-- Claim C7 witness: the ordering-comparison facts at the concrete missing
variable `missing`, the literal `0` and the operator `>`. -/
theorem C7_ordering_comparisons_witness :
    evaluateExpression (some "{age} > 18") [("age", JSValue.num 25)] = true
    ∧ evaluateExpression (some "{age} > 18") [("age", JSValue.num 10)] = false
    ∧ applyCompare CmpOp.gt (jsLookup [] "missing") (JSValue.num 0) = false
    ∧ evaluateExpression (some "{missing} > 0") [] = false :=
  C7_ordering_comparisons [] "missing" (JSValue.num 0) CmpOp.gt rfl rfl

/-- Claim C5 (amended): for a bare-name reference found in the definitions
mapping, the resolver returns the normalization of spreading the stored
definition over `\x7bname: ref\x7d` — the stored definition's properties,
its own `name` included, win — so the resolved name equals the reference
string exactly when the stored definition carries no `name` property. -/
theorem C5_bare_reference_resolution (refName : String) (fieldDef : FieldData)
    (fields : List (String × FieldData))
    (hlook : fields.lookup refName = some fieldDef) :
    resolveFieldReference (FieldReference.bare refName) fields
        = some (normalizeField (bareMerge refName fieldDef))
    ∧ (fieldDef.name = none →
        (normalizeField (bareMerge refName fieldDef)).name = refName) := by
  constructor
  · simp [resolveFieldReference, hlook]
  · intro hn
    simp [normalizeField, bareMerge, hn]

/-- Claim C5 witness: resolving `fullName` against a definition without a
`name` property of its own yields that name. -/
theorem C5_bare_reference_resolution_witness :
    resolveFieldReference (FieldReference.bare "fullName") pageFieldsDemo
        = some (normalizeField (bareMerge "fullName" textFieldDemo))
    ∧ (normalizeField (bareMerge "fullName" textFieldDemo)).name = "fullName" :=
  ⟨(C5_bare_reference_resolution "fullName" textFieldDemo pageFieldsDemo rfl).1,
   (C5_bare_reference_resolution "fullName" textFieldDemo pageFieldsDemo rfl).2 rfl⟩

/-- Claim C5 counterexample: a stored definition that carries its own
conflicting `name` property wins over the reference string — looking up
`"a"` resolves to a field named `"other"`, not `"a"` (the spread is
`\x7bname: ref, ...fieldDef\x7d`, so the reference name does not win). -/
theorem C5_name_conflict_counterexample :
    (resolveFieldReference (FieldReference.bare "a") conflictFieldsDemo).map ResolvedField.name
        = some "other"
    ∧ ¬((resolveFieldReference (FieldReference.bare "a") conflictFieldsDemo).map ResolvedField.name
        = some "a") := by
  constructor <;> decide

/-- Claim C2: compilation fails exactly when `config.pages` is absent or
empty, and the configuration error is the only error it can produce; every
config with at least one page compiles to a result. -/
theorem C2_pages_gate (today : JSDate) (rx : String → Option (String → Bool))
    (config : UnifiedFormConfig) :
    ((∃ e, generateRHFSchema today rx config = Except.error e) ↔ config.pages.getD [] = [])
    ∧ (∀ e, generateRHFSchema today rx config = Except.error e → e = pagesErrorMsg) := by
  unfold generateRHFSchema
  cases h : (config.pages.getD []).isEmpty with
  | true =>
      simp only [h, if_true]
      constructor
      · exact ⟨fun _ => List.isEmpty_iff.mp h, fun _ => ⟨pagesErrorMsg, rfl⟩⟩
      · intro e he
        exact (Except.error.injEq _ _ ▸ congrArg id he) ▸ rfl
  | false =>
      simp only [h, if_false]
      constructor
      · constructor
        · rintro ⟨e, he⟩
          cases he
        · intro hnil
          rw [hnil] at h
          cases h
      · intro e he
        cases he

/-- Claim C2 witness: a config with an explicitly empty pages list fails,
and a one-page config compiles without error. -/
theorem C2_pages_gate_witness :
    (∃ e, generateRHFSchema dateDemo rxNoneDemo emptyPagesConfigDemo = Except.error e)
    ∧ ¬(∃ e, generateRHFSchema dateDemo rxNoneDemo onePageConfigDemo = Except.error e) :=
  ⟨(C2_pages_gate dateDemo rxNoneDemo emptyPagesConfigDemo).1.mpr rfl,
   fun h => by
     have := (C2_pages_gate dateDemo rxNoneDemo onePageConfigDemo).1.mp h
     cases this⟩

/-- Claim C9: `resolvePageFields` drops exactly the unresolvable references
and keeps the rest in their original relative order: a page of three
references whose middle one is unresolvable yields the two resolved fields,
in order, with the dynamic-title transform applied — resolution is never
aborted. -/
theorem C9_drop_unresolvable (today : JSDate) (fm : List (String × FieldData))
    (pid : String) (r1 r2 r3 : FieldReference) (f1 f3 : ResolvedField)
    (h1 : resolveFieldReference r1 fm = some f1)
    (h2 : resolveFieldReference r2 fm = none)
    (h3 : resolveFieldReference r3 fm = some f3) :
    resolvePageFields today { id := pid, fields := [r1, r2, r3] } fm
        = [applyDynamicTitles today f1, applyDynamicTitles today f3] := by
  simp [resolvePageFields, h1, h2, h3]

/-- Claim C9 witness: a concrete page referencing `fullName`, an unknown
`nonExistent`, and `email` resolves to the two known fields in order. -/
theorem C9_drop_unresolvable_witness :
    resolvePageFields dateDemo
        { id := "p1"
          fields := [FieldReference.bare "fullName", FieldReference.bare "nonExistent",
                     FieldReference.bare "email"] } pageFieldsDemo
      = [applyDynamicTitles dateDemo (normalizeField (bareMerge "fullName" textFieldDemo)),
         applyDynamicTitles dateDemo (normalizeField (bareMerge "email" textFieldDemo))] :=
  C9_drop_unresolvable dateDemo pageFieldsDemo "p1"
    (FieldReference.bare "fullName") (FieldReference.bare "nonExistent")
    (FieldReference.bare "email")
    (normalizeField (bareMerge "fullName" textFieldDemo))
    (normalizeField (bareMerge "email" textFieldDemo)) rfl rfl rfl

/-- Concatenating the groups the grouping loop emits restores the running
group's fields followed by the remaining input. -/
theorem groupFieldsGo_flatten (cats : List Category) (cur : FieldGroup)
    (fs : List ResolvedField) :
    ((groupFieldsGo cats cur fs).map FieldGroup.fields).flatten = cur.fields ++ fs := by
  induction fs generalizing cur with
  | nil => simp [groupFieldsGo]
  | cons f fs ih =>
      simp only [groupFieldsGo]
      split
      · rw [ih]
        simp
      · simp only [List.map_cons, List.flatten_cons, ih]
        simp

/-- Every group the grouping loop emits is non-empty when the running group
is. -/
theorem groupFieldsGo_ne_nil (cats : List Category) (cur : FieldGroup)
    (fs : List ResolvedField) (hcur : cur.fields ≠ []) :
    ∀ g ∈ groupFieldsGo cats cur fs, g.fields ≠ [] := by
  induction fs generalizing cur with
  | nil =>
      intro g hg
      simp only [groupFieldsGo, List.mem_singleton] at hg
      exact hg ▸ hcur
  | cons f fs ih =>
      intro g hg
      simp only [groupFieldsGo] at hg
      split at hg
      · exact ih _ (by simp) g hg
      · rcases List.mem_cons.mp hg with h | h
        · exact h ▸ hcur
        · exact ih _ (by simp) g h

/-- The first group the grouping loop emits carries the running group's
category. -/
theorem groupFieldsGo_head_cat (cats : List Category) (cur : FieldGroup)
    (fs : List ResolvedField) :
    (groupFieldsGo cats cur fs).head?.map FieldGroup.category = some cur.category := by
  induction fs generalizing cur with
  | nil => rfl
  | cons f fs ih =>
      simp only [groupFieldsGo]
      split
      · rw [ih]
      · rfl

/-- Adjacent groups the grouping loop emits have different categories. -/
theorem groupFieldsGo_chain (cats : List Category) (cur : FieldGroup)
    (fs : List ResolvedField) :
    (groupFieldsGo cats cur fs).Chain' (fun a b => a.category ≠ b.category) := by
  induction fs generalizing cur with
  | nil => simp [groupFieldsGo]
  | cons f fs ih =>
      simp only [groupFieldsGo]
      split
      · exact ih _
      · rename_i hne
        rw [List.chain'_cons']
        refine ⟨?_, ih _⟩
        intro y hy
        have hh := groupFieldsGo_head_cat cats
          { category := f.category.getD ""
            categoryName := getCategoryName (some (f.category.getD "")) cats
            fields := [f] } fs
        rw [Option.mem_def] at hy
        rw [hy] at hh
        simp only [Option.map_some] at hh
        have hy2 : y.category = f.category.getD "" := Option.some.inj hh
        intro hcontra
        apply hne
        rw [hcontra, hy2]
        exact beq_self_eq_true _

/-- Claim C10: the groups of `groupFieldsByCategory` partition the input
into maximal adjacent runs of equal category (an absent category normalized
to the empty string): their field lists concatenate back to the input,
every group is non-empty, adjacent groups differ in category, the category
sequence A, A, B, B, A yields three groups of sizes 2, 2, 1, and empty
input yields empty output. -/
theorem C10_category_grouping (fields : List ResolvedField) (cats : List Category) :
    ((groupFieldsByCategory fields cats).map FieldGroup.fields).flatten = fields
    ∧ (∀ g ∈ groupFieldsByCategory fields cats, g.fields ≠ [])
    ∧ (groupFieldsByCategory fields cats).Chain' (fun a b => a.category ≠ b.category)
    ∧ (groupFieldsByCategory abbaFieldsDemo demoCategories).map (fun g => g.fields.length)
        = [2, 2, 1]
    ∧ groupFieldsByCategory [] cats = [] := by
  refine ⟨?_, ?_, ?_, by decide, rfl⟩
  · cases fields with
    | nil => rfl
    | cons f fs =>
        simp only [groupFieldsByCategory]
        rw [groupFieldsGo_flatten]
        rfl
  · cases fields with
    | nil => intro g hg; cases hg
    | cons f fs =>
        simp only [groupFieldsByCategory]
        exact groupFieldsGo_ne_nil cats _ fs (by simp)
  · cases fields with
    | nil => simp [groupFieldsByCategory]
    | cons f fs =>
        simp only [groupFieldsByCategory]
        exact groupFieldsGo_chain cats _ fs

/-- The issue a field contributes to the visibility pass sits at that
field's path. -/
theorem fieldVisibilityIssue_path (data : JSObj) (g : ResolvedField) (i : Issue)
    (h : fieldVisibilityIssue data g = some i) : i.path = [g.name] := by
  unfold fieldVisibilityIssue at h
  split at h
  · cases h
  · split at h
    · split at h
      · cases h
        rfl
      · cases h
    · cases h

/-- Fields named differently from `n` contribute nothing at path `[n]`. -/
theorem applyVisibility_filter_fresh (data : JSObj) (n : String)
    (l : List ResolvedField) (h : ∀ g ∈ l, g.name ≠ n) :
    (applyVisibilityValidation l data).filter (fun i => i.path == [n]) = [] := by
  induction l with
  | nil => rfl
  | cons g l ih =>
      simp only [applyVisibilityValidation, List.filterMap_cons]
      cases hg : fieldVisibilityIssue data g with
      | none =>
          exact ih (fun x hx => h x (List.mem_cons_of_mem g hx))
      | some i =>
          rw [List.filter_cons]
          have hpath : i.path = [g.name] := fieldVisibilityIssue_path data g i hg
          have hne : (i.path == [n]) = false := by
            rw [hpath]
            refine beq_eq_false_iff_ne.mpr ?_
            intro hc
            exact h g (List.mem_cons_self g l) (List.cons.inj hc).1
          rw [hne]
          simp only [Bool.false_eq_true, if_false]
          exact ih (fun x hx => h x (List.mem_cons_of_mem g hx))

/-- Claim C1: in the visibility-aware validation pass, a required
non-`html` field whose `visibleIf` expression evaluates to false against
the data contributes no failure at its path even when its value is empty;
with the visibility gate true and an empty value (`undefined`, `null`,
`""`, or `[]`) it contributes exactly one failure, `"This field is
required"` at `[fieldName]`, within the whole form's issue list. -/
theorem C1_visibility_gated_required (pre post : List ResolvedField) (data : JSObj)
    (f : ResolvedField) (hreq : requiredFlag f = true)
    (hfresh : ∀ g ∈ pre ++ post, g.name ≠ f.name) :
    (evaluateExpression f.visibleIf data = false →
      (applyVisibilityValidation (pre ++ f :: post) data).filter
          (fun i => i.path == [f.name]) = [])
    ∧ (isVisibleField f data = true → isEmptyValue (jsLookup data f.name) = true →
      (applyVisibilityValidation (pre ++ f :: post) data).filter
          (fun i => i.path == [f.name])
        = [⟨[f.name], "This field is required"⟩]) := by
  have hpre : ∀ g ∈ pre, g.name ≠ f.name := by
    intro g hg
    exact hfresh g (List.mem_append_left post hg)
  have hpost : ∀ g ∈ post, g.name ≠ f.name := by
    intro g hg
    exact hfresh g (List.mem_append_right pre hg)
  have hsplit : applyVisibilityValidation (pre ++ f :: post) data
      = applyVisibilityValidation pre data
        ++ ((fieldVisibilityIssue data f).toList ++ applyVisibilityValidation post data) := by
    simp [applyVisibilityValidation, List.filterMap_append, List.filterMap_cons]
    cases fieldVisibilityIssue data f <;> simp
  constructor
  · intro hgate
    have hvis : isVisibleField f data = false := by
      unfold isVisibleField
      by_cases hiv : (!(f.visible == some false) && jsTruthyStr f.visibleIf) = true
      · rw [if_pos hiv]
        exact hgate
      · rw [if_neg hiv]
        have htruthy : jsTruthyStr f.visibleIf = true := eval_false_truthy _ _ hgate
        have hab : (!(f.visible == some false) && jsTruthyStr f.visibleIf) = false := by
          cases hx : (!(f.visible == some false) && jsTruthyStr f.visibleIf)
          · rfl
          · exact absurd hx hiv
        rw [htruthy, Bool.and_true] at hab
        exact hab
    have hnone : fieldVisibilityIssue data f = none := by
      unfold fieldVisibilityIssue
      rw [hreq]
      simp only [Bool.not_true, Bool.false_eq_true, if_false]
      rw [hvis]
      simp
    rw [hsplit, hnone]
    simp only [Option.toList_none, List.nil_append, List.filter_append]
    rw [applyVisibility_filter_fresh data f.name pre hpre,
        applyVisibility_filter_fresh data f.name post hpost]
    rfl
  · intro hvis hempty
    have hsome : fieldVisibilityIssue data f
        = some ⟨[f.name], "This field is required"⟩ := by
      unfold fieldVisibilityIssue
      rw [hreq]
      simp only [Bool.not_true, Bool.false_eq_true, if_false]
      rw [hvis, if_pos rfl, hempty]
      simp
    rw [hsplit, hsome]
    simp only [Option.toList_some, List.filter_append]
    rw [applyVisibility_filter_fresh data f.name pre hpre,
        applyVisibility_filter_fresh data f.name post hpost]
    simp

/-- Claim C1 witness: the gate field false hides the empty required field
(no failure); the gate true makes its emptiness exactly one required
failure at its path. -/
theorem C1_visibility_gated_required_witness :
    (applyVisibilityValidation [showFieldDemo, secretFieldDemo] hiddenDataDemo).filter
        (fun i => i.path == [secretFieldDemo.name]) = []
    ∧ (applyVisibilityValidation [showFieldDemo, secretFieldDemo] visibleDataDemo).filter
        (fun i => i.path == [secretFieldDemo.name])
      = [⟨[secretFieldDemo.name], "This field is required"⟩] :=
  ⟨(C1_visibility_gated_required [showFieldDemo] [] hiddenDataDemo secretFieldDemo
      rfl (by decide)).1 (by decide),
   (C1_visibility_gated_required [showFieldDemo] [] visibleDataDemo secretFieldDemo
      rfl (by decide)).2 (by decide) (by decide)⟩

/-- Claim C4: a required (explicitly or by default), always-visible,
string-based field whose only validator is an email-format validator fails
an empty string with exactly the required message — the email refinement
skips empty values, so required-emptiness takes precedence — and fails a
non-empty malformed value with exactly the validator's format message. -/
theorem C4_required_email_precedence (rx : String → Option (String → Bool))
    (f : ResolvedField) (v : Validator)
    (hbase : stringBaseField f = true)
    (hreq : (!(f.isRequired == some false) && !(f.required == some false)) = true)
    (hvisible : (f.visible == some false) = false)
    (hnogate : jsTruthyStr f.visibleIf = false)
    (hvals : f.validators = [v])
    (hemail : v.type = "email") :
    runFieldSchema (compileField rx f).1 (JSValue.str "")
        = [⟨"This field is required", false⟩]
    ∧ ∀ s, emailOk s = false → s ≠ "" →
        runFieldSchema (compileField rx f).1 (JSValue.str s)
          = [⟨jsOrD v.text "Invalid email", false⟩] := by
  simp only [stringBaseField, Bool.and_eq_true] at hbase
  obtain ⟨⟨⟨⟨⟨⟨⟨h1, h2⟩, h3⟩, h4⟩, h5⟩, h6⟩, h7⟩, h8⟩ := hbase
  rw [Bool.not_eq_true'] at h1 h2 h3 h4 h5 h6 h7 h8
  rw [Bool.and_eq_true] at hreq
  obtain ⟨hr1, hr2⟩ := hreq
  have hschema : (compileField rx f).1
      = { baseType := BaseType.string
          checks := [ZCheck.strMin1 "This field is required",
                     ZCheck.strRefine (fun val => val == "" || emailOk val)
                       (jsOrD v.text "Invalid email")]
          wrapped := false } := by
    simp [compileField, h1, h2, h3, h4, h5, h6, h7, h8, hr1, hr2, hvisible, hnogate,
          hvals, hemail]
  rw [hschema]
  constructor
  · rfl
  · intro s hmal hne
    have hsne : (s == "") = false := beq_eq_false_iff_ne.mpr hne
    show runStringChecks
        [ZCheck.strMin1 "This field is required",
         ZCheck.strRefine (fun val => val == "" || emailOk val) (jsOrD v.text "Invalid email")] s
      = [⟨jsOrD v.text "Invalid email", false⟩]
    simp [runStringChecks, hsne, hmal]

/-- Claim C4 witness: the concrete required email field fails `""` with the
required message and fails `not-an-email` with its validator's message. -/
theorem C4_required_email_precedence_witness :
    runFieldSchema (compileField rxNoneDemo emailFieldDemo).1 (JSValue.str "")
        = [⟨"This field is required", false⟩]
    ∧ runFieldSchema (compileField rxNoneDemo emailFieldDemo).1 (JSValue.str "not-an-email")
        = [⟨"Bad email", false⟩] :=
  ⟨(C4_required_email_precedence rxNoneDemo emailFieldDemo emailValidatorDemo
      rfl rfl rfl rfl rfl rfl).1,
   (C4_required_email_precedence rxNoneDemo emailFieldDemo emailValidatorDemo
      rfl rfl rfl rfl rfl rfl).2 "not-an-email" (by decide) (by decide)⟩

/-- Every month has at least 28 days. -/
theorem daysInMonth_ge (y : Int) (m : Nat) : 28 ≤ daysInMonth y m := by
  unfold daysInMonth
  split <;> first
  | decide
  | (split <;> decide)

/-- With a day-of-month of at most 28, `setMonth` never overflows: the
resulting month is the target month index modulo 12. -/
theorem jsSetMonth_month_of_le (d : JSDate) (t : Int) (hd : d.day ≤ 28) :
    (jsSetMonth d t).month = (t % 12).toNat := by
  unfold jsSetMonth
  have h := daysInMonth_ge (d.year + t / 12) ((t % 12).toNat)
  rw [if_neg (by omega)]

/-- With a day-of-month of at most 28, the past-month label is the long name
of the target month index modulo 12. -/
theorem getPastMonthLabel_of_le (d : JSDate) (n : Nat) (hd : d.day ≤ 28) :
    getPastMonthLabel d n = monthLongName ((((d.month : Int) - n) % 12).toNat) := by
  unfold getPastMonthLabel
  rw [jsSetMonth_month_of_le d _ hd]

/-- Distinct month indices below 12 carry distinct long names. -/
theorem monthLongName_inj (a b : Nat) (ha : a < 12) (hb : b < 12) (hne : a ≠ b) :
    monthLongName a ≠ monthLongName b := by
  have key : ∀ x y : Fin 12, x ≠ y → monthLongName x.val ≠ monthLongName y.val := by decide
  exact key ⟨a, ha⟩ ⟨b, hb⟩ (fun h => hne (congrArg Fin.val h))

/-- Wrapping two different strings between the same fixed prefix and suffix
keeps them different. -/
theorem append_wrap_ne (p q x y : String) (h : x ≠ y) : p ++ x ++ q ≠ p ++ y ++ q := by
  intro he
  apply h
  have hd : (p ++ x ++ q).data = (p ++ y ++ q).data := congrArg String.data he
  simp only [String.data_append, List.append_assoc] at hd
  have hx : x.data = y.data :=
    List.append_cancel_right (List.append_cancel_left hd)
  cases x
  cases y
  exact congrArg String.mk hx

/-- Claim C8 (amended): for every current date whose day-of-month is at most
28 — so that JS `setMonth` cannot overflow the target month — the
dynamic-title month computation yields the same month name for 1 and 13
months back (wrap across the year boundary) and different month names for
1 and 2 months back, and the dynamic titles of `bank_statement_t1`,
`bank_statement_t13` and `bank_statement_t2` agree and differ accordingly.
On later days of a month the overflow can break both parts (see the
counterexample). -/
theorem C8_month_label_wrap (d : JSDate) (hm : d.month < 12) (hd : d.day ≤ 28) :
    getPastMonthLabel d 1 = getPastMonthLabel d 13
    ∧ getPastMonthLabel d 1 ≠ getPastMonthLabel d 2
    ∧ (applyDynamicTitles d (bankFieldDemo "bank_statement_t1")).displayName
        = (applyDynamicTitles d (bankFieldDemo "bank_statement_t13")).displayName
    ∧ (applyDynamicTitles d (bankFieldDemo "bank_statement_t1")).displayName
        ≠ (applyDynamicTitles d (bankFieldDemo "bank_statement_t2")).displayName := by
  have e1 : getPastMonthLabel d 1 = monthLongName ((((d.month : Int) - 1) % 12).toNat) :=
    getPastMonthLabel_of_le d 1 hd
  have e13 : getPastMonthLabel d 13 = monthLongName ((((d.month : Int) - 13) % 12).toNat) :=
    getPastMonthLabel_of_le d 13 hd
  have e2 : getPastMonthLabel d 2 = monthLongName ((((d.month : Int) - 2) % 12).toNat) :=
    getPastMonthLabel_of_le d 2 hd
  have hsame : getPastMonthLabel d 1 = getPastMonthLabel d 13 := by
    rw [e1, e13]
    congr 1
    omega
  have hdiff : getPastMonthLabel d 1 ≠ getPastMonthLabel d 2 := by
    rw [e1, e2]
    apply monthLongName_inj <;> omega
  have b1 : bankStatementSuffix "bank_statement_t1" = some 1 := by decide
  have b13 : bankStatementSuffix "bank_statement_t13" = some 13 := by decide
  have b2 : bankStatementSuffix "bank_statement_t2" = some 2 := by decide
  have t1 : (applyDynamicTitles d (bankFieldDemo "bank_statement_t1")).displayName
      = some ("Bank Statement (" ++ getPastMonthLabel d 1 ++ ")") := by
    simp [applyDynamicTitles, bankFieldDemo, b1]
  have t13 : (applyDynamicTitles d (bankFieldDemo "bank_statement_t13")).displayName
      = some ("Bank Statement (" ++ getPastMonthLabel d 13 ++ ")") := by
    simp [applyDynamicTitles, bankFieldDemo, b13]
  have t2 : (applyDynamicTitles d (bankFieldDemo "bank_statement_t2")).displayName
      = some ("Bank Statement (" ++ getPastMonthLabel d 2 ++ ")") := by
    simp [applyDynamicTitles, bankFieldDemo, b2]
  refine ⟨hsame, hdiff, ?_, ?_⟩
  · rw [t1, t13, hsame]
  · rw [t1, t2]
    intro hcontra
    exact append_wrap_ne "Bank Statement (" ")" _ _ hdiff (Option.some.inj hcontra)

/-- Claim C8 witness: the wrap facts at the mid-month date May 15 2025. -/
theorem C8_month_label_wrap_witness :
    getPastMonthLabel dateDemo 1 = getPastMonthLabel dateDemo 13
    ∧ getPastMonthLabel dateDemo 1 ≠ getPastMonthLabel dateDemo 2
    ∧ (applyDynamicTitles dateDemo (bankFieldDemo "bank_statement_t1")).displayName
        = (applyDynamicTitles dateDemo (bankFieldDemo "bank_statement_t13")).displayName
    ∧ (applyDynamicTitles dateDemo (bankFieldDemo "bank_statement_t1")).displayName
        ≠ (applyDynamicTitles dateDemo (bankFieldDemo "bank_statement_t2")).displayName :=
  C8_month_label_wrap dateDemo (by decide) (by decide)

/-- Claim C8 counterexample: on March 29 of the leap year 2024, one month
back is February (Feb 29 2024 is valid) but thirteen months back is Feb 29
2023, which `setMonth` overflows to March 1 2023 — the month names differ,
so the claim fails at this current date; and on August 31 the labels for
one and two months back collide (June 31 overflows to July 1), breaking
the claim's second part as well. -/
theorem C8_monthend_counterexample :
    getPastMonthLabel leapEdgeDateDemo 1 ≠ getPastMonthLabel leapEdgeDateDemo 13
    ∧ (applyDynamicTitles leapEdgeDateDemo (bankFieldDemo "bank_statement_t1")).displayName
        ≠ (applyDynamicTitles leapEdgeDateDemo (bankFieldDemo "bank_statement_t13")).displayName
    ∧ getPastMonthLabel monthEndDateDemo 1 = getPastMonthLabel monthEndDateDemo 2 := by
  refine ⟨by decide, by decide, by decide⟩
